import Mathlib

/-!
Verification of the rune-airdrop detection-and-execution core.

This file gives a shallow embedding of the parts of the repository that the
specification talks about, and proves (or refutes) the specification claims
against it.  Each definition is translated from the named TypeScript source:

* LockManager        from src/utils/lock-manager.ts
* NetworkDetector    from src/core/network-detector.ts
* SnipeEngine        from src/unnamed/part_001 (the snipe-engine module)
* ProfileManager     from src/core/profile-manager.ts and src/utils/file-manager.ts

External collaborators (filesystem, OS process table, the FlashNet SDK, the
event-loop clock) are modelled as explicit environment records whose fields
hold the outcome of each external call; injected fault flags represent the
errors the try/catch blocks of the source absorb.  Asynchronous code is
modelled by explicit state passing: each async method becomes a function from
the pre-state and the environment to the post-state together with the list of
events it emits, in emission order.
-/

namespace LockManager

/-- The on-disk lock record (interface ProfileLock in src/types/profile.ts):
holder identity (pid + hostname) and acquisition time in epoch milliseconds. -/
structure ProfileLock where
  profileName : String
  pid : Nat
  timestamp : Int
  hostname : String
deriving Repr, DecidableEq

/-- Outcome of the signal-0 liveness probe process.kill(pid, 0): either the
call succeeds (the process exists and is visible), or it throws ESRCH (no such
process) or EPERM (process may exist but the caller may not signal it). -/
inductive KillResult where
  | ok
  | esrch
  | eperm
deriving Repr, DecidableEq

/-- Environment of one lock-manager call: the current time (epoch ms), the
calling process identity, injected I/O faults for the file operations the
source wraps in try/catch, and the liveness probe. -/
structure LockEnv where
  now : Int
  selfPid : Nat
  hostname : String
  readFails : Bool
  writeFails : Bool
  unlinkFails : Bool
  kill : Nat → KillResult

/-- STALE_LOCK_TIMEOUT = 5 * 60 * 1000 milliseconds. -/
def staleLockTimeout : Int := 5 * 60 * 1000

/-- readLockFile: reads and parses the lock file, returning null on any error
(missing file, unreadable file, or corrupt JSON all take the catch branch).
The disk content is an Option: none when no lock file exists. -/
def readLockFile (env : LockEnv) (disk : Option ProfileLock) : Option ProfileLock :=
  if env.readFails then none else disk

/-- isLockStale: a lock is stale when it is older than STALE_LOCK_TIMEOUT, or
when the signal-0 probe throws (the catch branch treats both a dead process
and a permissions failure as stale). -/
def isLockStale (env : LockEnv) (lock : ProfileLock) : Bool :=
  if env.now - lock.timestamp > staleLockTimeout then true
  else
    match env.kill lock.pid with
    | KillResult.ok => false
    | KillResult.esrch => true
    | KillResult.eperm => true

/-- removeLock: unlinks the lock file, ignoring any unlink error. -/
def removeLock (env : LockEnv) (disk : Option ProfileLock) : Option ProfileLock :=
  if env.unlinkFails then disk else none

/-- The record acquireLock writes for the calling process. -/
def newLock (env : LockEnv) (profileName : String) : ProfileLock :=
  { profileName := profileName
    pid := env.selfPid
    timestamp := env.now
    hostname := env.hostname }

/-- acquireLock: reads the existing record; if one exists and is not stale it
returns false without touching the disk; otherwise it removes any stale
record and writes a fresh one for the caller.  The outer try/catch absorbs a
write failure into a false return.  Result: (returned boolean, disk after). -/
def acquireLock (env : LockEnv) (disk : Option ProfileLock) (profileName : String) :
    Bool × Option ProfileLock :=
  match readLockFile env disk with
  | some lock =>
    if isLockStale env lock then
      let disk1 := removeLock env disk
      if env.writeFails then (false, disk1)
      else (true, some (newLock env profileName))
    else
      (false, disk)
  | none =>
    if env.writeFails then (false, disk)
    else (true, some (newLock env profileName))

/-- isLocked: true iff a record parses and is not stale; any error in the
outer try/catch yields false. -/
def isLocked (env : LockEnv) (disk : Option ProfileLock) : Bool :=
  match readLockFile env disk with
  | none => false
  | some lock => ! isLockStale env lock

end LockManager

namespace NetworkDetector

/-- The two networks the detector can watch. -/
inductive Network where
  | MAINNET
  | REGTEST
deriving Repr, DecidableEq

/-- NetworkStatus (src/types/cli.ts): the snapshot recomputed on every check.
Timestamps are epoch milliseconds; latency is absent until the first check. -/
structure NetworkStatus where
  isOnline : Bool
  network : Network
  lastCheck : Int
  latency : Option Nat
  consecutiveFailures : Nat
deriving Repr, DecidableEq

/-- The mutable fields of a NetworkDetector instance that the health-check
path touches: the polling flag, whether a timer is scheduled, the last status
snapshot, and the instance-level consecutive-failure counter. -/
structure DetectorState where
  isPolling : Bool
  timerSet : Bool
  currentStatus : NetworkStatus
  consecutiveFailures : Nat
deriving Repr, DecidableEq

/-- Outcome of one ping raced against the health-check timeout: either a
response arrives in time (ok records whether response.status was the healthy
value), or the ping rejected or the timeout fired first. -/
inductive ProbeOutcome where
  | response (ok : Bool) (latency : Nat)
  | failure (latency : Nat)
deriving Repr, DecidableEq

/-- Input of one health check: the probe outcome and the wall-clock instant
the check started (new Date() at the top of performHealthCheck). -/
structure CheckInput where
  outcome : ProbeOutcome
  checkTimestamp : Int
deriving Repr, DecidableEq

/-- Payload of the emitted status events (interface NetworkStatusEvent). -/
structure StatusEvent where
  isOnline : Bool
  network : Network
  timestamp : Int
  latency : Nat
  previousStatus : Bool
deriving Repr, DecidableEq

/-- The events the detector emits, in the order emitStatusEvents fires them.
The generic edge events networkOnline/networkOffline are the TransitionEvent
of the specification; the mainnet-prefixed pair is the extra trigger channel
the controller listens on, emitted on the same edge for MAINNET only. -/
inductive Event where
  | statusUpdate (e : StatusEvent)
  | networkOnline (e : StatusEvent)
  | networkOffline (e : StatusEvent)
  | mainnetOnline (e : StatusEvent)
  | mainnetOffline (e : StatusEvent)
  | degraded (e : StatusEvent) (consecutiveFailures : Nat)
  | slow (e : StatusEvent)
  | monitoringStarted (network : Network) (timestamp : Int)
deriving Repr, DecidableEq

/-- emitStatusEvents: always emits statusUpdate; emits the edge events only
when the online flag changed; emits degraded while offline with at least
maxFailures consecutive failures; emits slow when latency exceeds 10000 ms. -/
def emitStatusEvents (maxFailures : Nat) (st : DetectorState)
    (previousStatus : Bool) (latency : Nat) : List Event :=
  let e : StatusEvent :=
    { isOnline := st.currentStatus.isOnline
      network := st.currentStatus.network
      timestamp := st.currentStatus.lastCheck
      latency := latency
      previousStatus := previousStatus }
  [Event.statusUpdate e]
    ++ (if previousStatus ≠ st.currentStatus.isOnline then
          if st.currentStatus.isOnline then
            Event.networkOnline e ::
              (if st.currentStatus.network = Network.MAINNET then
                [Event.mainnetOnline e] else [])
          else
            Event.networkOffline e ::
              (if st.currentStatus.network = Network.MAINNET then
                [Event.mainnetOffline e] else [])
        else [])
    ++ (if st.consecutiveFailures ≥ maxFailures ∧ st.currentStatus.isOnline = false then
          [Event.degraded e st.consecutiveFailures] else [])
    ++ (if latency > 10000 then [Event.slow e] else [])

/-- performHealthCheck: updates the status snapshot and failure counter from
the probe outcome, then emits the status events.  A resolved ping sets
online to (status was healthy) and resets or bumps the counter; a rejected
or timed-out ping takes the catch branch, bumps the counter and goes offline.
Returns the post-state and the emitted events (the method also returns the
fresh status, which is the currentStatus field of the post-state). -/
def performHealthCheck (maxFailures : Nat) (st : DetectorState) (inp : CheckInput) :
    DetectorState × List Event :=
  let previousStatus := st.currentStatus.isOnline
  match inp.outcome with
  | ProbeOutcome.response ok latency =>
    let isOnline := ok
    let cf := if isOnline then 0 else st.consecutiveFailures + 1
    let st1 : DetectorState :=
      { st with
        currentStatus :=
          { isOnline := isOnline
            network := st.currentStatus.network
            lastCheck := inp.checkTimestamp
            latency := some latency
            consecutiveFailures := cf }
        consecutiveFailures := cf }
    (st1, emitStatusEvents maxFailures st1 previousStatus latency)
  | ProbeOutcome.failure latency =>
    let cf := st.consecutiveFailures + 1
    let st1 : DetectorState :=
      { st with
        currentStatus :=
          { isOnline := false
            network := st.currentStatus.network
            lastCheck := inp.checkTimestamp
            latency := some latency
            consecutiveFailures := cf }
        consecutiveFailures := cf }
    (st1, emitStatusEvents maxFailures st1 previousStatus latency)

/-- startMonitoring: when polling is already active it logs a console warning
and returns immediately (no exception, no event, no state change).  Otherwise
it switches the client network, resets the failure counter, emits the
monitoring-started event, performs one immediate check and schedules the next
one.  The Except result type records that the method can in principle reject;
the guard branch resolves normally. -/
def startMonitoring (maxFailures : Nat) (st : DetectorState) (network : Network)
    (inp : CheckInput) : Except String (DetectorState × List Event) :=
  if st.isPolling then
    Except.ok (st, [])
  else
    let st1 : DetectorState :=
      { st with
        currentStatus := { st.currentStatus with network := network }
        isPolling := true
        consecutiveFailures := 0 }
    let r := performHealthCheck maxFailures st1 inp
    Except.ok ({ r.1 with timerSet := true },
      Event.monitoringStarted network inp.checkTimestamp :: r.2)

/-- The online verdict a probe outcome produces (response.status healthy). -/
def probeOnline : ProbeOutcome → Bool
  | ProbeOutcome.response ok _ => ok
  | ProbeOutcome.failure _ => false

/-- The instance counter and the snapshot field agree.  This holds from
construction (both start at 0) and is preserved by every health check. -/
def cfSynced (st : DetectorState) : Prop :=
  st.currentStatus.consecutiveFailures = st.consecutiveFailures

/-- Classifier for the specification TransitionEvent: the generic edge pair. -/
def isTransitionEvent : Event → Bool
  | Event.networkOnline _ => true
  | Event.networkOffline _ => true
  | _ => false

/-- Classifier for the unconditional per-check StatusUpdate event. -/
def isStatusUpdateEvent : Event → Bool
  | Event.statusUpdate _ => true
  | _ => false

end NetworkDetector

namespace SnipeEngine

/-- One configured operation (interface Snipe, src/types/profile.ts), with the
fields the engine reads.  amountBtc holds the numeric value parseFloat gives
for the configured decimal string. -/
structure Snipe where
  id : String
  tokenAddress : String
  amountBtc : ℚ
  encryptedMnemonic : String
  isActive : Bool
deriving Repr, DecidableEq

/-- A pool entry as the engine matches it.  tokenPublicKey is optional on the
wire; an absent field never matches (undefined === x is false). -/
structure Pool where
  poolId : String
  assetATokenPublicKey : String
  assetBTokenPublicKey : String
  tokenPublicKey : Option String
deriving Repr, DecidableEq

/-- listPools responses come either as a bare array or as an object whose
pools property may be missing (the source then falls back to an empty list). -/
inductive PoolsResponse where
  | arr (pools : List Pool)
  | obj (pools : Option (List Pool))
deriving Repr

/-- The request simulateSwap receives. -/
structure SimulateSwapRequest where
  poolId : String
  assetInTokenPublicKey : String
  assetOutTokenPublicKey : String
  amountIn : Int
deriving Repr, DecidableEq

/-- The simulation result; amountOut may be absent, the source guards it
with a falsy-or (simulation.amountOut or 0). -/
structure Simulation where
  amountOut : Option ℚ
deriving Repr, DecidableEq

/-- The request executeSwap receives (amountIn and minAmountOut become
BigInt; maxSlippageBps is the configured percentage times 100). -/
structure ExecuteSwapRequest where
  poolId : String
  assetInTokenPublicKey : String
  assetOutTokenPublicKey : String
  amountIn : Int
  minAmountOut : Int
  maxSlippageBps : ℚ
deriving Repr, DecidableEq

/-- The swap result the SDK returns. -/
structure SwapResult where
  txId : Option String
  transactionHash : Option String
  amountOut : Option ℚ
deriving Repr, DecidableEq

/-- Outcomes of the external calls one attempt makes, in call order: wallet
restore, balance read, pool listing, simulation, submission.  Every call is
async and may reject with an error message; the per-attempt try/catch turns
any rejection into a retry.  The per-run wallet cache only affects whether
the restore call is re-issued, not its modelled outcome. -/
structure AttemptEnv where
  restoreWallet : Except String Unit
  getBalance : Except String ℚ
  listPools : Except String PoolsResponse
  simulateSwap : SimulateSwapRequest → Except String Simulation
  executeSwap : ExecuteSwapRequest → Except String SwapResult

/-- The data a successful attempt produced, including the exact request the
engine submitted. -/
structure AttemptSuccess where
  pool : Pool
  simulation : Simulation
  execRequest : ExecuteSwapRequest
  swapResult : SwapResult
deriving Repr, DecidableEq

/-- The resolved execution options (Required SnipeExecutionOptions). -/
structure ExecutionOptions where
  maxRetries : Nat
  retryDelay : Nat
  maxRetryDelay : Nat
  slippageTolerance : ℚ
  executeInParallel : Bool
deriving Repr, DecidableEq

/-- The caller-supplied options, every field optional. -/
structure SnipeExecutionOptions where
  maxRetries : Option Nat := none
  retryDelay : Option Nat := none
  maxRetryDelay : Option Nat := none
  slippageTolerance : Option ℚ := none
  executeInParallel : Option Bool := none

/-- JavaScript falsy-or for a numeric option: undefined and 0 both fall back
to the default. -/
def orDefaultNat (v : Option Nat) (d : Nat) : Nat :=
  match v with
  | some n => if n = 0 then d else n
  | none => d

/-- JavaScript falsy-or for a rational option. -/
def orDefaultRat (v : Option ℚ) (d : ℚ) : ℚ :=
  match v with
  | some q => if q = 0 then d else q
  | none => d

/-- The engine constructor: option resolution against the configuration
defaults maxRetryAttempts = 20, initialRetryDelay = 2000 ms and
maxRetryDelay = 5000 ms (src/utils/config defaults with no environment
overrides), slippageTolerance default 10 (percent), parallel default true
(nullish coalescing, so only an absent value falls back). -/
def mkExecutionOptions (o : SnipeExecutionOptions) : ExecutionOptions :=
  { maxRetries := orDefaultNat o.maxRetries 20
    retryDelay := orDefaultNat o.retryDelay 2000
    maxRetryDelay := orDefaultNat o.maxRetryDelay 5000
    slippageTolerance := orDefaultRat o.slippageTolerance 10
    executeInParallel := o.executeInParallel.getD true }

/-- String.prototype.includes for a fixed non-empty pattern. -/
def strIncludes (s pat : String) : Bool :=
  (s.splitOn pat).length ≥ 2

/-- The pool-matching predicate of the engine: the token address may match
either asset key, the token public key, or the pool id. -/
def poolMatches (tokenAddress : String) (p : Pool) : Bool :=
  (p.assetATokenPublicKey == tokenAddress)
    || (p.assetBTokenPublicKey == tokenAddress)
    || (p.tokenPublicKey == some tokenAddress)
    || (p.poolId == tokenAddress)

/-- The body of one attempt (the try block of executeSingleSnipe): restore
the wallet, read the balance, list pools, locate the pool, pick the asset
direction, convert the BTC amount to satoshis, simulate, compute the minimum
acceptable output with slippage, and submit.  Any rejected call or missing
pool yields the error message the catch branch records. -/
def attemptSnipe (opts : ExecutionOptions) (snipe : Snipe) (env : AttemptEnv) :
    Except String AttemptSuccess :=
  match env.restoreWallet with
  | Except.error e => Except.error e
  | Except.ok _ =>
    match env.getBalance with
    | Except.error e => Except.error e
    | Except.ok _ =>
      match env.listPools with
      | Except.error e => Except.error e
      | Except.ok poolsResponse =>
        let pools :=
          match poolsResponse with
          | PoolsResponse.arr ps => ps
          | PoolsResponse.obj ps => ps.getD []
        match pools.find? (poolMatches snipe.tokenAddress) with
        | none => Except.error ("Pool not found for token " ++ snipe.tokenAddress)
        | some pool =>
          let isBtcAssetA :=
            (pool.assetATokenPublicKey == "BTC")
              || strIncludes pool.assetATokenPublicKey "btc"
          let assetInToken :=
            if isBtcAssetA then pool.assetATokenPublicKey
            else pool.assetBTokenPublicKey
          let assetOutToken :=
            if isBtcAssetA then pool.assetBTokenPublicKey
            else pool.assetATokenPublicKey
          let amountInSats : Int := Int.floor (snipe.amountBtc * 100000000)
          match env.simulateSwap
              { poolId := pool.poolId
                assetInTokenPublicKey := assetInToken
                assetOutTokenPublicKey := assetOutToken
                amountIn := amountInSats } with
          | Except.error e => Except.error e
          | Except.ok simulation =>
            let minAmountOut : Int :=
              Int.floor ((simulation.amountOut.getD 0)
                * (1 - opts.slippageTolerance / 100))
            let execReq : ExecuteSwapRequest :=
              { poolId := pool.poolId
                assetInTokenPublicKey := assetInToken
                assetOutTokenPublicKey := assetOutToken
                amountIn := amountInSats
                minAmountOut := minAmountOut
                maxSlippageBps := opts.slippageTolerance * 100 }
            match env.executeSwap execReq with
            | Except.error e => Except.error e
            | Except.ok swapResult =>
              Except.ok
                { pool := pool
                  simulation := simulation
                  execRequest := execReq
                  swapResult := swapResult }

/-- The per-snipe result (interface SnipeResult) restricted to the fields the
claims talk about; wall-clock timing fields are not modelled. -/
structure SnipeResult where
  snipeId : String
  success : Bool
  transactionHash : Option String := none
  tokensReceived : Option ℚ := none
  error : Option String := none
  attempts : Nat
deriving Repr, DecidableEq

/-- The backoff the source computes between a failed attempt and the next:
min(retryDelay * 2 ^ (attempt - 1), maxRetryDelay). -/
def backoffDelay (opts : ExecutionOptions) (attempt : Nat) : Nat :=
  min (opts.retryDelay * 2 ^ (attempt - 1)) opts.maxRetryDelay

/-- The retry loop of executeSingleSnipe.  fuel is maxRetries minus the
attempts already made (the while guard), envs gives the external-call
outcomes of each attempt (1-based), delays accumulates the backoff sleeps in
reverse order.  A successful attempt returns immediately; a failed one
records the error and sleeps only when another attempt remains. -/
def snipeAttemptsGo (opts : ExecutionOptions) (snipe : Snipe)
    (envs : Nat → AttemptEnv) :
    Nat → Nat → Option String → List Nat → SnipeResult × List Nat
  | attempts, 0, lastError, delays =>
    ({ snipeId := snipe.id
       success := false
       error := lastError
       attempts := attempts }, delays.reverse)
  | attempts, fuel + 1, _lastError, delays =>
    let a := attempts + 1
    match attemptSnipe opts snipe (envs a) with
    | Except.ok s =>
      ({ snipeId := snipe.id
         success := true
         transactionHash :=
           match s.swapResult.txId with
           | some t => some t
           | none => s.swapResult.transactionHash
         tokensReceived := s.swapResult.amountOut
         attempts := a }, delays.reverse)
    | Except.error msg =>
      if a < opts.maxRetries then
        snipeAttemptsGo opts snipe envs a fuel (some msg)
          (backoffDelay opts a :: delays)
      else
        snipeAttemptsGo opts snipe envs a fuel (some msg) delays

/-- executeSingleSnipe: run the retry loop from zero attempts with the full
retry budget.  Returns the result and the list of backoff delays slept, in
order. -/
def executeSingleSnipe (opts : ExecutionOptions) (snipe : Snipe)
    (envs : Nat → AttemptEnv) : SnipeResult × List Nat :=
  snipeAttemptsGo opts snipe envs 0 opts.maxRetries none []

/-- executeSnipesInParallel: one executeSingleSnipe task per snipe, results
collected by Promise.all in input order (completion order does not reorder
them).  Each task reads only its own snipe and its own external calls, so the
batch is the pointwise map.  Event listeners are assumed not to throw (a
throwing listener is an external collaborator failure outside this model). -/
def executeSnipesInParallel (opts : ExecutionOptions)
    (envs : Snipe → Nat → AttemptEnv) (snipes : List Snipe) : List SnipeResult :=
  snipes.map (fun s => (executeSingleSnipe opts s (envs s)).1)

/-- executeSnipesSequentially: the same tasks run one after another in input
order, each awaited before the next starts. -/
def executeSnipesSequentially (opts : ExecutionOptions)
    (envs : Snipe → Nat → AttemptEnv) (snipes : List Snipe) : List SnipeResult :=
  snipes.map (fun s => (executeSingleSnipe opts s (envs s)).1)

/-- executeSnipes: rejects when a run is already in progress, otherwise
filters the active snipes and dispatches on the configured mode. -/
def executeSnipes (opts : ExecutionOptions) (isExecuting : Bool)
    (envs : Snipe → Nat → AttemptEnv) (snipes : List Snipe) :
    Except String (List SnipeResult) :=
  if isExecuting then
    Except.error ("Snipe execution already in progress")
  else
    let activeSnipes := snipes.filter (fun s => s.isActive)
    if opts.executeInParallel then
      Except.ok (executeSnipesInParallel opts envs activeSnipes)
    else
      Except.ok (executeSnipesSequentially opts envs activeSnipes)

end SnipeEngine

namespace ProfileManager

/-- The persisted configuration aggregate (interface Profile) restricted to
the fields the save path touches.  lastUsed is epoch milliseconds. -/
structure Profile where
  name : String
  lastUsed : Int
  snipes : List SnipeEngine.Snipe
deriving Repr, DecidableEq

/-- The on-disk content of one profile directory: the config.json content,
the backup copies (newest first), and the lock file. -/
structure ProfileDir where
  configFile : Option Profile
  backups : List Profile
  lock : Option LockManager.ProfileLock
deriving Repr, DecidableEq

/-- Environment of one save: the wall clock and injected I/O faults for the
backup copy and the atomic write. -/
structure SaveEnv where
  now : Int
  backupFails : Bool
  writeFails : Bool

/-- saveProfile: stamps lastUsed, copies the existing config.json to a backup
(a failed copy only warns), atomically writes the new aggregate, then prunes
the backups to the 5 most recent.  A failed write is rethrown as a
save error.  No lock is consulted anywhere on this path. -/
def saveProfile (env : SaveEnv) (dir : ProfileDir) (profile : Profile) :
    Except String ProfileDir :=
  let profile1 : Profile := { profile with lastUsed := env.now }
  let backups1 :=
    match dir.configFile with
    | some old => if env.backupFails then dir.backups else old :: dir.backups
    | none => dir.backups
  if env.writeFails then
    Except.error ("Failed to save profile")
  else
    Except.ok
      { configFile := some profile1
        backups := backups1.take 5
        lock := dir.lock }

end ProfileManager

/-- Claim C3 (confirmed): a lock record is stale if and only if its age
exceeds the stale timeout (strict comparison, default 5 minutes) or the
signal-0 liveness probe does not confirm the holder alive — a permissions
failure of the probe counts as stale just like a dead process. -/
theorem lock_staleness_rule (env : LockManager.LockEnv)
    (lock : LockManager.ProfileLock) :
    (LockManager.isLockStale env lock = true ↔
      (env.now - lock.timestamp > LockManager.staleLockTimeout ∨
        env.kill lock.pid ≠ LockManager.KillResult.ok)) ∧
    LockManager.staleLockTimeout = 5 * 60 * 1000 := by
  refine ⟨?_, rfl⟩
  unfold LockManager.isLockStale
  by_cases h : env.now - lock.timestamp > LockManager.staleLockTimeout
  · simp [h]
  · simp only [if_neg h]
    cases hk : env.kill lock.pid <;> simp [h, hk]

/-- Environment of the re-acquire scenario: the caller is pid 42 on host1,
all file operations succeed, and every probed process is alive. -/
def c2env : LockManager.LockEnv :=
  { now := 1000
    selfPid := 42
    hostname := "host1"
    readFails := false
    writeFails := false
    unlinkFails := false
    kill := fun _ => LockManager.KillResult.ok }

/-- The lock record the caller of c2env itself wrote moments ago. -/
def c2lock : LockManager.ProfileLock :=
  { profileName := "p1", pid := 42, timestamp := 1000, hostname := "host1" }

/-- Claim C2, counterexample: the caller already holds a valid lock — the
record on disk is exactly the record it would itself write — yet acquireLock
returns false; re-acquire by the same holder is not an idempotent success. -/
theorem acquireLock_reacquire_counterexample :
    c2lock = LockManager.newLock c2env "p1" ∧
    LockManager.isLockStale c2env c2lock = false ∧
    LockManager.acquireLock c2env (some c2lock) "p1" = (false, some c2lock) := by
  refine ⟨rfl, by decide, by decide⟩

/-- Claim C2 (amended): with read and write succeeding, acquireLock returns
true and writes a fresh record when no record exists or the existing one is
stale, and returns false without mutating the disk whenever a valid record
exists — regardless of its holder, the caller itself included. -/
theorem acquireLock_amended (env : LockManager.LockEnv)
    (disk : Option LockManager.ProfileLock) (name : String)
    (hr : env.readFails = false) (hw : env.writeFails = false) :
    (disk = none →
      LockManager.acquireLock env disk name =
        (true, some (LockManager.newLock env name))) ∧
    (∀ lock, disk = some lock → LockManager.isLockStale env lock = true →
      LockManager.acquireLock env disk name =
        (true, some (LockManager.newLock env name))) ∧
    (∀ lock, disk = some lock → LockManager.isLockStale env lock = false →
      LockManager.acquireLock env disk name = (false, disk)) := by
  refine ⟨?_, ?_, ?_⟩
  · intro h
    subst h
    simp [LockManager.acquireLock, LockManager.readLockFile, hr, hw]
  · intro lock h hs
    subst h
    simp [LockManager.acquireLock, LockManager.readLockFile, hr, hw, hs]
  · intro lock h hs
    subst h
    simp [LockManager.acquireLock, LockManager.readLockFile, hr, hs]

/-- Witness for the amended C2 theorem: acquiring with no record present
succeeds and writes the caller record. -/
theorem acquireLock_amended_witness :
    LockManager.acquireLock c2env none "p1" =
      (true, some (LockManager.newLock c2env "p1")) :=
  (acquireLock_amended c2env none "p1" rfl rfl).1 rfl

/-- Environment where reading the lock record fails with an I/O error while
writing succeeds; every probed process is alive. -/
def c10env : LockManager.LockEnv :=
  { now := 0
    selfPid := 7
    hostname := "h1"
    readFails := true
    writeFails := false
    unlinkFails := false
    kill := fun _ => LockManager.KillResult.ok }

/-- A fresh lock record of a different, living holder (pid 99 on h2). -/
def c10lock : LockManager.ProfileLock :=
  { profileName := "p1", pid := 99, timestamp := 0, hostname := "h2" }

/-- Claim C10, counterexample: an I/O error while reading the lock record
does not make acquireLock return false — the error is absorbed inside
readLockFile as a missing record, and acquireLock returns true, overwriting
a valid record of another living holder. -/
theorem acquireLock_read_error_counterexample :
    c10env.readFails = true ∧
    LockManager.isLockStale c10env c10lock = false ∧
    (LockManager.acquireLock c10env (some c10lock) "p1").1 = true := by
  refine ⟨rfl, by decide, by decide⟩

/-- Claim C10 (amended): acquireLock never throws; a write failure is caught
by the outer handler and yields false — so a false return does not imply a
valid lock of another holder — while a read failure is absorbed inside
readLockFile as a missing record, after which acquireLock writes a fresh
lock and returns true. -/
theorem acquireLock_error_absorption (env : LockManager.LockEnv)
    (disk : Option LockManager.ProfileLock) (name : String) :
    (env.writeFails = true → (LockManager.acquireLock env disk name).1 = false) ∧
    (env.readFails = true → env.writeFails = false →
      LockManager.acquireLock env disk name =
        (true, some (LockManager.newLock env name))) := by
  constructor
  · intro hw
    by_cases hr : env.readFails
    · simp [LockManager.acquireLock, LockManager.readLockFile, hr, hw]
    · simp only [Bool.not_eq_true] at hr
      cases disk with
      | none => simp [LockManager.acquireLock, LockManager.readLockFile, hr, hw]
      | some lock =>
        by_cases hs : LockManager.isLockStale env lock
        · simp [LockManager.acquireLock, LockManager.readLockFile, hr, hw, hs]
        · simp [LockManager.acquireLock, LockManager.readLockFile, hr, hs]
  · intro hr hw
    simp [LockManager.acquireLock, LockManager.readLockFile, hr, hw]

/-- Witness for the amended C10 theorem at a concrete faulty environment. -/
theorem acquireLock_error_absorption_witness :
    LockManager.acquireLock c10env (some c10lock) "p1" =
      (true, some (LockManager.newLock c10env "p1")) :=
  (acquireLock_error_absorption c10env (some c10lock) "p1").2 rfl rfl

/-- A profile aggregate about to be saved. -/
def c4profile : ProfileManager.Profile :=
  { name := "p1", lastUsed := 0, snipes := [] }

/-- A profile directory with no lock record at all: no caller holds a lock. -/
def c4dir : ProfileManager.ProfileDir :=
  { configFile := none, backups := [], lock := none }

/-- A fault-free save environment. -/
def c4env : ProfileManager.SaveEnv :=
  { now := 5, backupFails := false, writeFails := false }

/-- A lock-manager view of the same instant, used to evaluate isLocked. -/
def c4lockEnv : LockManager.LockEnv :=
  { now := 5
    selfPid := 1
    hostname := "h1"
    readFails := false
    writeFails := false
    unlinkFails := false
    kill := fun _ => LockManager.KillResult.ok }

/-- Claim C4, counterexample: the profile is not locked by anyone, yet
saveProfile succeeds and replaces the persisted aggregate — no NotLocked
error exists on the save path. -/
theorem saveProfile_without_lock_counterexample :
    LockManager.isLocked c4lockEnv c4dir.lock = false ∧
    ProfileManager.saveProfile c4env c4dir c4profile =
      Except.ok
        { configFile := some { c4profile with lastUsed := 5 }
          backups := []
          lock := none } ∧
    c4dir.configFile ≠ some { c4profile with lastUsed := 5 } := by
  refine ⟨rfl, rfl, by decide⟩

/-- Claim C4 (amended): saveProfile consults no lock — whenever the write
succeeds it saves, whatever the lock state, and its result is independent of
the lock field; the in-use guard exists only on other paths (deleteProfile). -/
theorem saveProfile_ignores_lock (env : ProfileManager.SaveEnv)
    (dir : ProfileManager.ProfileDir) (p : ProfileManager.Profile)
    (l : Option LockManager.ProfileLock) (hw : env.writeFails = false) :
    (∃ d, ProfileManager.saveProfile env dir p = Except.ok d ∧
      d.configFile = some { p with lastUsed := env.now }) ∧
    ProfileManager.saveProfile env { dir with lock := l } p =
      (ProfileManager.saveProfile env dir p).map
        (fun d => { d with lock := l }) := by
  constructor
  · unfold ProfileManager.saveProfile
    rw [if_neg (by simp [hw])]
    exact ⟨_, rfl, rfl⟩
  · simp [ProfileManager.saveProfile, hw, Except.map]

/-- Witness for the amended C4 theorem at a concrete directory. -/
theorem saveProfile_ignores_lock_witness :
    ProfileManager.saveProfile c4env { c4dir with lock := none } c4profile =
      (ProfileManager.saveProfile c4env c4dir c4profile).map
        (fun d => { d with lock := none }) :=
  (saveProfile_ignores_lock c4env c4dir c4profile none rfl).2

/-- A detector state that is already actively monitoring MAINNET. -/
def c6st : NetworkDetector.DetectorState :=
  { isPolling := true
    timerSet := true
    currentStatus :=
      { isOnline := false
        network := NetworkDetector.Network.MAINNET
        lastCheck := 0
        latency := none
        consecutiveFailures := 0 }
    consecutiveFailures := 0 }

/-- The probe input an immediate check would consume. -/
def c6inp : NetworkDetector.CheckInput :=
  { outcome := NetworkDetector.ProbeOutcome.response true 5
    checkTimestamp := 1 }

/-- Claim C6, counterexample: monitoring is already active, yet a second
start resolves normally — it returns ok with no events and an unchanged
state; no AlreadyMonitoring error is surfaced to the caller. -/
theorem startMonitoring_already_active_counterexample :
    c6st.isPolling = true ∧
    NetworkDetector.startMonitoring 3 c6st NetworkDetector.Network.MAINNET c6inp =
      Except.ok (c6st, []) :=
  ⟨rfl, rfl⟩

/-- Claim C6 (amended): calling start while monitoring is already active is a
silent no-op — a console warning is logged, no error reaches the caller, no
event is emitted, and the monitoring schedule and state are left unchanged. -/
theorem startMonitoring_noop_when_polling (mf : Nat)
    (st : NetworkDetector.DetectorState) (n : NetworkDetector.Network)
    (inp : NetworkDetector.CheckInput) (h : st.isPolling = true) :
    NetworkDetector.startMonitoring mf st n inp = Except.ok (st, []) := by
  simp [NetworkDetector.startMonitoring, h]

/-- Witness for the amended C6 theorem at a concrete active state. -/
theorem startMonitoring_noop_when_polling_witness :
    NetworkDetector.startMonitoring 3 c6st NetworkDetector.Network.REGTEST c6inp =
      Except.ok (c6st, []) :=
  startMonitoring_noop_when_polling 3 c6st NetworkDetector.Network.REGTEST c6inp rfl

/-- Claim C7 (confirmed): on a state whose snapshot counter and instance
counter agree (true from construction on), one health check makes the
snapshot online exactly when the probe verdict is healthy, sets the snapshot
consecutiveFailures to exactly 0 on a healthy check and to exactly the old
value plus 1 on a failed or timed-out check, and preserves the agreement. -/
theorem consecutiveFailures_step (mf : Nat) (st : NetworkDetector.DetectorState)
    (inp : NetworkDetector.CheckInput) (h : NetworkDetector.cfSynced st) :
    ((NetworkDetector.performHealthCheck mf st inp).1.currentStatus.isOnline =
      NetworkDetector.probeOnline inp.outcome) ∧
    ((NetworkDetector.performHealthCheck mf st inp).1.currentStatus.consecutiveFailures =
      if NetworkDetector.probeOnline inp.outcome then 0
      else st.currentStatus.consecutiveFailures + 1) ∧
    NetworkDetector.cfSynced (NetworkDetector.performHealthCheck mf st inp).1 := by
  obtain ⟨o, t⟩ := inp
  unfold NetworkDetector.cfSynced at h ⊢
  cases o with
  | response ok latency =>
    cases ok <;>
      simp [NetworkDetector.performHealthCheck, NetworkDetector.probeOnline, h]
  | failure latency =>
    simp [NetworkDetector.performHealthCheck, NetworkDetector.probeOnline, h]

/-- An offline state with two recorded consecutive failures, counters in
agreement. -/
def c7st : NetworkDetector.DetectorState :=
  { isPolling := true
    timerSet := true
    currentStatus :=
      { isOnline := false
        network := NetworkDetector.Network.MAINNET
        lastCheck := 0
        latency := some 7
        consecutiveFailures := 2 }
    consecutiveFailures := 2 }

/-- A timed-out check input. -/
def c7inp : NetworkDetector.CheckInput :=
  { outcome := NetworkDetector.ProbeOutcome.failure 30
    checkTimestamp := 9 }

/-- Witness for C7 at a concrete state: a further failed check bumps the
snapshot counter from 2 to exactly 3. -/
theorem consecutiveFailures_step_witness :
    ((NetworkDetector.performHealthCheck 3 c7st c7inp).1.currentStatus.isOnline =
      NetworkDetector.probeOnline c7inp.outcome) ∧
    ((NetworkDetector.performHealthCheck 3 c7st c7inp).1.currentStatus.consecutiveFailures =
      if NetworkDetector.probeOnline c7inp.outcome then 0
      else c7st.currentStatus.consecutiveFailures + 1) ∧
    NetworkDetector.cfSynced (NetworkDetector.performHealthCheck 3 c7st c7inp).1 :=
  consecutiveFailures_step 3 c7st c7inp rfl

/-- Shape of one emitStatusEvents call: the statusUpdate comes first and
unconditionally; the edge (transition) events land in the tail, appear
exactly once when the online flag changed and never otherwise, and carry the
same payload as the statusUpdate. -/
theorem emitStatusEvents_shape (mf : Nat) (st : NetworkDetector.DetectorState)
    (prev : Bool) (latency : Nat) :
    ∃ e rest,
      NetworkDetector.emitStatusEvents mf st prev latency =
        NetworkDetector.Event.statusUpdate e :: rest ∧
      e.isOnline = st.currentStatus.isOnline ∧
      e.previousStatus = prev ∧
      rest.countP (fun ev => NetworkDetector.isStatusUpdateEvent ev) = 0 ∧
      rest.countP (fun ev => NetworkDetector.isTransitionEvent ev) =
        (if prev = st.currentStatus.isOnline then 0 else 1) ∧
      (∀ ev ∈ rest, NetworkDetector.isTransitionEvent ev = true →
        ev = NetworkDetector.Event.networkOnline e ∨
        ev = NetworkDetector.Event.networkOffline e) := by
  simp only [NetworkDetector.emitStatusEvents]
  refine ⟨_, _, rfl, rfl, rfl, ?_, ?_, ?_⟩ <;>
    split_ifs <;>
      simp_all [List.countP_append, List.countP_cons,
        NetworkDetector.isTransitionEvent, NetworkDetector.isStatusUpdateEvent]

/-- Claim C8 (confirmed): every health check emits a statusUpdate first and
unconditionally; a transition (edge) event appears if and only if the online
flag differs from the immediately preceding status, at most once per check,
strictly after the statusUpdate and carrying the same payload.  The
mainnet-channel duplicates are the controller trigger, a separate event kind
from the specification TransitionEvent. -/
theorem transition_event_per_check (mf : Nat) (st : NetworkDetector.DetectorState)
    (inp : NetworkDetector.CheckInput) :
    ∃ e rest,
      (NetworkDetector.performHealthCheck mf st inp).2 =
        NetworkDetector.Event.statusUpdate e :: rest ∧
      e.isOnline = (NetworkDetector.performHealthCheck mf st inp).1.currentStatus.isOnline ∧
      e.previousStatus = st.currentStatus.isOnline ∧
      rest.countP (fun ev => NetworkDetector.isStatusUpdateEvent ev) = 0 ∧
      rest.countP (fun ev => NetworkDetector.isTransitionEvent ev) =
        (if st.currentStatus.isOnline =
            (NetworkDetector.performHealthCheck mf st inp).1.currentStatus.isOnline
          then 0 else 1) ∧
      (∀ ev ∈ rest, NetworkDetector.isTransitionEvent ev = true →
        ev = NetworkDetector.Event.networkOnline e ∨
        ev = NetworkDetector.Event.networkOffline e) := by
  obtain ⟨o, t⟩ := inp
  cases o with
  | response ok latency =>
    simpa [NetworkDetector.performHealthCheck] using
      emitStatusEvents_shape mf
        { st with
          currentStatus :=
            { isOnline := ok
              network := st.currentStatus.network
              lastCheck := t
              latency := some latency
              consecutiveFailures := if ok then 0 else st.consecutiveFailures + 1 }
          consecutiveFailures := if ok then 0 else st.consecutiveFailures + 1 }
        st.currentStatus.isOnline latency
  | failure latency =>
    simpa [NetworkDetector.performHealthCheck] using
      emitStatusEvents_shape mf
        { st with
          currentStatus :=
            { isOnline := false
              network := st.currentStatus.network
              lastCheck := t
              latency := some latency
              consecutiveFailures := st.consecutiveFailures + 1 }
          consecutiveFailures := st.consecutiveFailures + 1 }
        st.currentStatus.isOnline latency

/-- Claim C1 (confirmed): with no run in progress, a parallel run returns ok
with exactly one outcome per active operation, in input order, and the
outcome at each position is a function of that operation and its own
external calls alone — so one operation exhausting its retries can neither
cancel nor change any other outcome. -/
theorem parallel_batch_outcomes (opts : SnipeEngine.ExecutionOptions)
    (envs : SnipeEngine.Snipe → Nat → SnipeEngine.AttemptEnv)
    (snipes : List SnipeEngine.Snipe)
    (hpar : opts.executeInParallel = true) :
    SnipeEngine.executeSnipes opts false envs snipes =
      Except.ok ((snipes.filter (fun s => s.isActive)).map
        (fun s => (SnipeEngine.executeSingleSnipe opts s (envs s)).1)) := by
  simp [SnipeEngine.executeSnipes, SnipeEngine.executeSnipesInParallel, hpar]

/-- Retry-loop invariant under an always-failing executor: from attempt
counter attempts with fuel attempts left (their sum the retry budget), the
loop exhausts the budget, records the last error message, and sleeps the
backoff exactly between consecutive attempts. -/
theorem snipeAttemptsGo_allFail (opts : SnipeEngine.ExecutionOptions)
    (snipe : SnipeEngine.Snipe) (envs : Nat → SnipeEngine.AttemptEnv)
    (msgs : Nat → String)
    (hfail : ∀ k, SnipeEngine.attemptSnipe opts snipe (envs k) =
      Except.error (msgs k)) :
    ∀ (fuel attempts : Nat) (lastError : Option String) (delays : List Nat),
      attempts + fuel = opts.maxRetries →
      SnipeEngine.snipeAttemptsGo opts snipe envs attempts fuel lastError delays =
        ({ snipeId := snipe.id
           success := false
           error := if fuel = 0 then lastError else some (msgs opts.maxRetries)
           attempts := opts.maxRetries },
         delays.reverse ++
           (List.range' (attempts + 1) (fuel - 1)).map
             (SnipeEngine.backoffDelay opts)) := by
  intro fuel
  induction fuel with
  | zero =>
    intro attempts lastError delays h
    have ha : attempts = opts.maxRetries := by omega
    subst ha
    simp [SnipeEngine.snipeAttemptsGo]
  | succ f ih =>
    intro attempts lastError delays h
    simp only [SnipeEngine.snipeAttemptsGo, hfail (attempts + 1)]
    by_cases hc : attempts + 1 < opts.maxRetries
    · rw [if_pos hc]
      obtain ⟨f1, rfl⟩ : ∃ f1, f = f1 + 1 := ⟨f - 1, by omega⟩
      rw [ih (attempts + 1) (some (msgs (attempts + 1)))
        (SnipeEngine.backoffDelay opts (attempts + 1) :: delays) (by omega)]
      simp [List.range'_succ, List.append_assoc]
    · rw [if_neg hc]
      have hf : f = 0 := by omega
      subst hf
      rw [ih (attempts + 1) (some (msgs (attempts + 1))) delays (by omega)]
      have h1 : attempts + 1 = opts.maxRetries := by omega
      simp [h1]

/-- Claim C5 (confirmed): with an executor that fails on every call, the
engine produces success false, attemptsUsed = maxRetries, errorMessage = the
message of the last attempt, and it sleeps exactly
min(initialDelay * 2^(k-1), maxDelay) between attempts k and k+1 for
k = 1 .. maxRetries-1 — no delay after the final attempt; the resolved
defaults are initialDelay 2000 ms, maxDelay 5000 ms, maxRetries 20. -/
theorem executeSingleSnipe_exhaustion (opts : SnipeEngine.ExecutionOptions)
    (snipe : SnipeEngine.Snipe) (envs : Nat → SnipeEngine.AttemptEnv)
    (msgs : Nat → String)
    (hfail : ∀ k, SnipeEngine.attemptSnipe opts snipe (envs k) =
      Except.error (msgs k))
    (hR : 1 ≤ opts.maxRetries) :
    SnipeEngine.executeSingleSnipe opts snipe envs =
      ({ snipeId := snipe.id
         success := false
         error := some (msgs opts.maxRetries)
         attempts := opts.maxRetries },
       (List.range' 1 (opts.maxRetries - 1)).map
         (fun k => min (opts.retryDelay * 2 ^ (k - 1)) opts.maxRetryDelay)) ∧
    SnipeEngine.mkExecutionOptions {} =
      { maxRetries := 20
        retryDelay := 2000
        maxRetryDelay := 5000
        slippageTolerance := 10
        executeInParallel := true } := by
  refine ⟨?_, rfl⟩
  have h := snipeAttemptsGo_allFail opts snipe envs msgs hfail
    opts.maxRetries 0 none [] (by omega)
  rw [SnipeEngine.executeSingleSnipe, h]
  have h0 : opts.maxRetries ≠ 0 := by omega
  simp [h0, SnipeEngine.backoffDelay]

/-- Options with a small retry budget and the default delays, parallel mode. -/
def wOpts : SnipeEngine.ExecutionOptions :=
  { maxRetries := 3
    retryDelay := 2000
    maxRetryDelay := 5000
    slippageTolerance := 10
    executeInParallel := true }

/-- An active snipe whose target no environment can serve. -/
def wSnipe : SnipeEngine.Snipe :=
  { id := "w1"
    tokenAddress := "NOPE"
    amountBtc := 1
    encryptedMnemonic := "m"
    isActive := true }

/-- An environment whose first external call already rejects. -/
def wEnvFail : SnipeEngine.AttemptEnv :=
  { restoreWallet := Except.error ("boom")
    getBalance := Except.error ("boom")
    listPools := Except.error ("boom")
    simulateSwap := fun _ => Except.error ("boom")
    executeSwap := fun _ => Except.error ("boom") }

/-- Witness for C5: three attempts, all failing, give attempts = 3, the last
error, and backoff sleeps 2000 then 4000 (and none after the final attempt). -/
theorem executeSingleSnipe_exhaustion_witness :
    SnipeEngine.executeSingleSnipe wOpts wSnipe (fun _ => wEnvFail) =
      ({ snipeId := wSnipe.id
         success := false
         error := some ("boom")
         attempts := wOpts.maxRetries },
       (List.range' 1 (wOpts.maxRetries - 1)).map
         (fun k => min (wOpts.retryDelay * 2 ^ (k - 1)) wOpts.maxRetryDelay)) ∧
    SnipeEngine.mkExecutionOptions {} =
      { maxRetries := 20
        retryDelay := 2000
        maxRetryDelay := 5000
        slippageTolerance := 10
        executeInParallel := true } :=
  executeSingleSnipe_exhaustion wOpts wSnipe (fun _ => wEnvFail)
    (fun _ => "boom") (fun _ => rfl) (by decide)

/-- An active snipe targeting the token TOKB with one BTC of input. -/
def c9snipe : SnipeEngine.Snipe :=
  { id := "s1"
    tokenAddress := "TOKB"
    amountBtc := 1
    encryptedMnemonic := "m"
    isActive := true }

/-- A BTC/TOKB pool matching the snipe on its B asset. -/
def c9pool : SnipeEngine.Pool :=
  { poolId := "pool1"
    assetATokenPublicKey := "BTC"
    assetBTokenPublicKey := "TOKB"
    tokenPublicKey := none }

/-- A fully successful environment: the simulation quotes 1000 out and the
submission settles at 1000. -/
def c9env : SnipeEngine.AttemptEnv :=
  { restoreWallet := Except.ok ()
    getBalance := Except.ok 100000
    listPools := Except.ok (SnipeEngine.PoolsResponse.arr [c9pool])
    simulateSwap := fun _ => Except.ok { amountOut := some 1000 }
    executeSwap := fun _ =>
      Except.ok { txId := some ("tx1"), transactionHash := none, amountOut := some 1000 } }

/-- The attempt result the c9 environment produces: the engine submits
minAmountOut 900 = floor(1000 * (1 - 10/100)) and slippage bps 1000. -/
def c9res : SnipeEngine.AttemptSuccess :=
  { pool := c9pool
    simulation := { amountOut := some 1000 }
    execRequest :=
      { poolId := "pool1"
        assetInTokenPublicKey := "BTC"
        assetOutTokenPublicKey := "TOKB"
        amountIn := 100000000
        minAmountOut := 900
        maxSlippageBps := 1000 }
    swapResult := { txId := some ("tx1"), transactionHash := none, amountOut := some 1000 } }

/-- Evaluation of the attempt under the c9 environment. -/
theorem c9run : SnipeEngine.attemptSnipe wOpts c9snipe c9env = Except.ok c9res := by
  simp only [SnipeEngine.attemptSnipe, c9env, c9snipe, c9pool, wOpts, c9res,
    SnipeEngine.poolMatches, SnipeEngine.strIncludes, List.find?]
  norm_num

/-- Claim C9, counterexample: with simulated output 1000 and the configured
slippage tolerance 10, the engine submits minAmountOut 900, not
simulatedOutput * (1 - slippageTolerance) = -9000: the source divides the
tolerance by 100 (it is a percentage) and floors the product. -/
theorem minAmountOut_counterexample :
    SnipeEngine.attemptSnipe wOpts c9snipe c9env = Except.ok c9res ∧
    ((c9res.execRequest.minAmountOut : ℚ) ≠
      (c9res.simulation.amountOut.getD 0) * (1 - wOpts.slippageTolerance)) := by
  constructor
  · exact c9run
  · norm_num [c9res, wOpts]

/-- Claim C9 (amended): on every successful attempt the submitted minimum
acceptable output is floor(simulatedOutput * (1 - slippageTolerance / 100)),
the slippage tolerance being a percentage. -/
theorem minAmountOut_formula (opts : SnipeEngine.ExecutionOptions)
    (snipe : SnipeEngine.Snipe) (env : SnipeEngine.AttemptEnv)
    (s : SnipeEngine.AttemptSuccess)
    (h : SnipeEngine.attemptSnipe opts snipe env = Except.ok s) :
    s.execRequest.minAmountOut =
      Int.floor ((s.simulation.amountOut.getD 0) *
        (1 - opts.slippageTolerance / 100)) := by
  simp only [SnipeEngine.attemptSnipe] at h
  repeat' split at h
  all_goals injection h
  all_goals (rename_i h2; subst h2; rfl)

/-- Witness for the amended C9 theorem at the concrete successful run. -/
theorem minAmountOut_formula_witness :
    c9res.execRequest.minAmountOut =
      Int.floor ((c9res.simulation.amountOut.getD 0) *
        (1 - wOpts.slippageTolerance / 100)) :=
  minAmountOut_formula wOpts c9snipe c9env c9res c9run

/-- Mixed environments: the w1 operation always fails, every other one uses
the fully successful c9 environment. -/
def wEnvs : SnipeEngine.Snipe → Nat → SnipeEngine.AttemptEnv :=
  fun s _ => if s.id == "w1" then wEnvFail else c9env

/-- Witness for C1: a batch with one always-failing and one succeeding
operation returns one outcome per active operation in input order, each the
pointwise result of its own run. -/
theorem parallel_batch_outcomes_witness :
    SnipeEngine.executeSnipes wOpts false wEnvs [wSnipe, c9snipe] =
      Except.ok (([wSnipe, c9snipe].filter (fun s => s.isActive)).map
        (fun s => (SnipeEngine.executeSingleSnipe wOpts s (wEnvs s)).1)) :=
  parallel_batch_outcomes wOpts wEnvs [wSnipe, c9snipe] rfl
